import Mathlib

/-!
Verification development for the clinichub-backend video service.

The definitions below shallowly embed the TypeScript sources:
- `src/src/video/video.controller.ts` (the `VideoController` handlers), and
- the bootstrap file (global timeout interceptor, CORS middleware for the
  upload route, the two rate limiters, and the upload socket timeouts).

The `VideoService` / `S3Service` bodies are not part of the provided
sources; where a claim depends on them, the corresponding definition is
modelled from the specification (sections 4.2-4.4) and its doc comment
says so explicitly.

Effectful calls (object-storage `put` / `delete`, record-store `create`,
signed-URL generation) are embedded by passing their outcomes in as
`Except` values and by logging every attempted side effect in an explicit
operation list, so that "no I/O happened" and "exactly one compensating
delete" are provable statements.
-/

namespace ClinicHub

/- HttpStatus constants from the controller's imports. -/
namespace HttpStatus

def OK : Nat := 200

def CREATED : Nat := 201

def NOT_FOUND : Nat := 404

def UNPROCESSABLE_ENTITY : Nat := 422

def INTERNAL_SERVER_ERROR : Nat := 500

end HttpStatus

/-- The uniform response envelope `ApiResponse<T> = {statusCode, message, data}`
(`src/common/types/ApiResponse.interface`); `data: T | null` becomes `Option α`. -/
structure ApiResponse (α : Type) where
  statusCode : Nat
  message : String
  data : Option α
deriving DecidableEq

/-- A thrown JavaScript error as observed by the controller catch blocks:
only `error.statusCode` and `error.message` are read, both possibly absent. -/
structure ThrownError where
  statusCode : Option Nat
  message : Option String
deriving DecidableEq

/-- JavaScript `error.statusCode || dflt`: absent or `0` (falsy) yields the default. -/
def jsOrCode (c : Option Nat) (dflt : Nat) : Nat :=
  match c with
  | none => dflt
  | some n => if n = 0 then dflt else n

/-- JavaScript `error.message || dflt`: absent or `""` (falsy) yields the default. -/
def jsOrMessage (m : Option String) (dflt : String) : String :=
  match m with
  | none => dflt
  | some s => if s = "" then dflt else s

/-- The envelope built by every controller catch block:
`{statusCode: error.statusCode || 500, message: error.message || dflt, data: null}`. -/
def errorEnvelope {α : Type} (e : ThrownError) (dfltMsg : String) : ApiResponse α :=
  ⟨jsOrCode e.statusCode HttpStatus.INTERNAL_SERVER_ERROR,
   jsOrMessage e.message dfltMsg, none⟩

/-- The `Video` entity fields the controller reads. `fileKey` is an optional
column (`!video.fileKey` is checked), so it is an `Option String` here. -/
structure Video where
  id : String
  title : String
  description : String
  fileKey : Option String
  originalName : String
  size : Nat
  mimetype : String
deriving DecidableEq

/-- `CreateVideoDto`: the multipart body fields `title` and `description`. -/
structure CreateVideoDto where
  title : String
  description : String
deriving DecidableEq

/-- `UpdateVideoDto`: partial metadata for PATCH. -/
structure UpdateVideoDto where
  title : Option String
  description : Option String
deriving DecidableEq

/-- The fields of `Express.Multer.File` the validators and the service read. -/
structure UploadedFile where
  originalname : String
  mimetype : String
  size : Nat
deriving DecidableEq

/-- Sequence containment on lists (`needle` occurs contiguously in the
haystack), mirroring an unanchored JavaScript regex/`includes` match. -/
def containsSeq {α : Type} [BEq α] : List α → List α → Bool
  | needle, [] => needle.isEmpty
  | needle, a :: rest => needle.isPrefixOf (a :: rest) || containsSeq needle rest

/-- Substring test on strings, via `containsSeq` on the character lists. -/
def strContains (hay needle : String) : Bool :=
  containsSeq needle.data hay.data

/-- The upload size limit: `1024 * 1024 * 2000` bytes, passed both to the
`FileInterceptor` `limits.fileSize` and to `MaxFileSizeValidator`
(video.controller.ts lines 40 and 66). -/
def maxFileSize : Nat := 1024 * 1024 * 2000

/-- `FileTypeValidator {fileType: 'video/*'}` performs
`file.mimetype.match('video/*')`: an unanchored regex in which `/*` matches
zero or more slashes, so the mimetype is accepted iff it contains `"video"`. -/
def matchesVideoType (mimetype : String) : Bool :=
  strContains mimetype "video"

/-- The `ParseFilePipe` validation of the upload endpoint: the file passes
iff its size is below `maxFileSize` (NestJS `MaxFileSizeValidator` uses
strict `<`) and its mimetype matches the `video/*` pattern. -/
def validateFile (f : UploadedFile) : Bool :=
  decide (f.size < maxFileSize) && matchesVideoType f.mimetype

/-- The message built by the pipe `exceptionFactory` from the failing
validator's description. -/
def fileValidationMessage (f : UploadedFile) : String :=
  "Error de validación del archivo: " ++
    (if decide (f.size < maxFileSize) then "Validation failed (expected type is video/*)"
     else "Validation failed (expected size is less than 2097152000)")

/-- Modelled from the spec: the Video Record Store lookup by identifier
(section 4.2); `videoService.findOne` is a thin pass-through to it
(section 4.4) returning the record or null. The store is a list of records. -/
def storeFindOne (st : List Video) (id : String) : Option Video :=
  st.find? fun v => v.id == id

/-- Modelled from the spec: applying an `UpdateVideoDto` changes title and
description only (section 4.2: storage key, size, content type immutable). -/
def applyUpdate (v : Video) (dto : UpdateVideoDto) : Video :=
  { v with title := dto.title.getD v.title,
           description := dto.description.getD v.description }

/-- Modelled from the spec: `videoService.update` looks the record up and,
when present, applies the metadata update; on a miss it returns null. -/
def storeUpdate (st : List Video) (id : String) (dto : UpdateVideoDto) : Option Video :=
  (storeFindOne st id).map (fun v => applyUpdate v dto)

/-- Modelled from the spec: `videoService.remove` looks the record up; on a
miss it returns null, otherwise it deletes the record (and best-effort the
object) and returns the removed record. -/
def storeRemove (st : List Video) (id : String) : Option Video × List Video :=
  match storeFindOne st id with
  | none => (none, st)
  | some v => (some v, st.filter fun w => !(w.id == id))

/-- Modelled from the spec: storage-key derivation (section 4.3 step 2), a
fresh opaque identifier combined with the original filename's extension. -/
def makeStorageKey (nonce ext : String) : String := nonce ++ ext

/-- Suffix of a character list starting at its last dot, if any. -/
def lastDotSuffix : List Char → Option (List Char)
  | [] => none
  | c :: t =>
    match lastDotSuffix t with
    | some s => some s
    | none => if c = '.' then some (c :: t) else none

/-- Modelled from the spec: the original filename's extension (last-dot
suffix, empty when there is no dot), as `path.extname` would produce. -/
def extOf (name : String) : String :=
  match lastDotSuffix name.data with
  | some s => ⟨s⟩
  | none => ""

/-- Modelled from the spec: the VideoRecord created at the end of a
successful upload run (section 3): supplied title/description, the derived
storage key, and the file's metadata. -/
def mkVideoRecord (id key : String) (f : UploadedFile) (dto : CreateVideoDto) : Video :=
  { id := id, title := dto.title, description := dto.description,
    fileKey := some key, originalName := f.originalname,
    size := f.size, mimetype := f.mimetype }

/-- An attempted side effect of the upload workflow, in attempt order. -/
inductive StorageOp where
  | putObject (key : String)
  | deleteObject (key : String)
  | createRecord (key : String)
deriving DecidableEq

/-- Recognizer for compensating-delete attempts. -/
def isDeleteOp : StorageOp → Bool
  | .deleteObject _ => true
  | _ => false

/-- Outcomes of the external calls made during one upload run, plus the
fresh identifier and key nonce for that run. The workflow itself never
inspects `deleteResult`: the compensating delete is fire-and-forget. -/
structure UploadEnv where
  putResult : Except ThrownError Unit
  createResult : Except ThrownError Unit
  deleteResult : Except ThrownError Unit
  freshId : String
  nonce : String

/-- Modelled from the spec: `videoService.upload` (section 4.3). Derive the
storage key; `put` to the gateway (failure aborts, no record); on `put`
success, `create` the record (failure triggers exactly one best-effort
compensating `delete` whose own outcome is ignored, then the original
error is surfaced); on success return the created record. The second
component logs every attempted operation in order. -/
def serviceUpload (env : UploadEnv) (f : UploadedFile) (dto : CreateVideoDto) :
    Except ThrownError Video × List StorageOp :=
  let key := makeStorageKey env.nonce (extOf f.originalname)
  match env.putResult with
  | .error e => (.error e, [.putObject key])
  | .ok _ =>
    match env.createResult with
    | .ok _ => (.ok (mkVideoRecord env.freshId key f dto),
                [.putObject key, .createRecord key])
    | .error e => (.error e, [.putObject key, .createRecord key, .deleteObject key])

/-- `uploadVideo` success/catch translation (video.controller.ts lines 82-98). -/
def uploadVideoHandler (svc : Except ThrownError Video) : ApiResponse Video :=
  match svc with
  | .ok v => ⟨HttpStatus.CREATED, "Video subido exitosamente", some v⟩
  | .error e => errorEnvelope e "Error al subir el video"

/-- The POST /videos/upload endpoint: the `ParseFilePipe` validation runs
before the handler body; on failure the `exceptionFactory` envelope
(statusCode 422, data null) is returned and nothing else runs (empty
operation log); otherwise the upload workflow runs and its result is
translated by the handler. -/
def uploadVideoEndpoint (f : UploadedFile) (dto : CreateVideoDto) (env : UploadEnv) :
    ApiResponse Video × List StorageOp :=
  if validateFile f then
    let r := serviceUpload env f dto
    (uploadVideoHandler r.1, r.2)
  else
    (⟨HttpStatus.UNPROCESSABLE_ENTITY, fileValidationMessage f, none⟩, [])

/-- GET /videos (video.controller.ts lines 101-117). -/
def findAllEndpoint (svc : Except ThrownError (List Video)) : ApiResponse (List Video) :=
  match svc with
  | .ok vs => ⟨HttpStatus.OK, "Videos obtenidos exitosamente", some vs⟩
  | .error e => errorEnvelope e "Error al obtener los videos"

/-- GET /videos/:id (video.controller.ts lines 119-142): a miss is a
success envelope with null data. -/
def findOneEndpoint (svc : Except ThrownError (Option Video)) : ApiResponse Video :=
  match svc with
  | .ok none => ⟨HttpStatus.OK, "Video no encontrado", none⟩
  | .ok (some v) => ⟨HttpStatus.OK, "Video obtenido exitosamente", some v⟩
  | .error e => errorEnvelope e "Error al obtener el video"

/-- GET /videos/:id/signed-url (video.controller.ts lines 144-170).
`!video || !video.fileKey` (absent record, null key, or empty-string key —
all falsy) yields a 404 envelope; otherwise the gateway is asked for a
signed URL for `video.fileKey`. The second component logs the keys the
gateway was actually called with. -/
def getSignedUrlEndpoint (svc : Except ThrownError (Option Video))
    (s3SignedUrl : String → Except ThrownError String) :
    ApiResponse String × List String :=
  match svc with
  | .error e => (errorEnvelope e "Error al obtener la URL firmada", [])
  | .ok none => (⟨HttpStatus.NOT_FOUND, "Video no encontrado", none⟩, [])
  | .ok (some v) =>
    match v.fileKey with
    | none => (⟨HttpStatus.NOT_FOUND, "Video no encontrado", none⟩, [])
    | some k =>
      if k = "" then (⟨HttpStatus.NOT_FOUND, "Video no encontrado", none⟩, [])
      else
        match s3SignedUrl k with
        | .ok url => (⟨HttpStatus.OK, "URL firmada obtenida exitosamente", some url⟩, [k])
        | .error e => (errorEnvelope e "Error al obtener la URL firmada", [k])

/-- PATCH /videos/:id (video.controller.ts lines 172-198): a miss is a
success envelope with null data. -/
def updateEndpoint (svc : Except ThrownError (Option Video)) : ApiResponse Video :=
  match svc with
  | .ok none => ⟨HttpStatus.OK, "Video no encontrado", none⟩
  | .ok (some v) => ⟨HttpStatus.OK, "Video actualizado exitosamente", some v⟩
  | .error e => errorEnvelope e "Error al actualizar el video"

/-- DELETE /videos/:id (video.controller.ts lines 200-223): `data` is
always null; a miss is still a 200 envelope. -/
def removeEndpoint (svc : Except ThrownError (Option Video)) : ApiResponse Unit :=
  match svc with
  | .ok none => ⟨HttpStatus.OK, "Video no encontrado", none⟩
  | .ok (some _) => ⟨HttpStatus.OK, "Video eliminado exitosamente", none⟩
  | .error e => errorEnvelope e "Error al eliminar el video"

/-- `new TimeoutInterceptor(300000)` applied globally (bootstrap line 38). -/
def globalTimeoutMs : Nat := 300000

/-- `req.setTimeout(600000)` / `res.setTimeout(600000)` for upload-path
requests (bootstrap lines 112-120). -/
def uploadRequestTimeoutMs : Nat := 600000

/-- General rate limiter window: `15 * 60 * 1000` ms (bootstrap line 94). -/
def generalRateWindowMs : Nat := 15 * 60 * 1000

/-- General rate limiter quota: `max: 100` (bootstrap line 95). -/
def generalRateMax : Nat := 100

/-- Upload rate limiter window: `60 * 60 * 1000` ms (bootstrap line 106). -/
def uploadRateWindowMs : Nat := 60 * 60 * 1000

/-- Upload rate limiter quota: `max: 10` (bootstrap line 107). -/
def uploadRateMax : Nat := 10

/-- The general limiter's `skip` predicate:
`req.url?.includes('/videos/upload')` (bootstrap lines 96-99). -/
def generalLimiterSkips (url : String) : Bool :=
  strContains url "/videos/upload"

/-- The mount path of the upload-specific middleware (`app.use` path). -/
def uploadRoutePath : String := "/api/v1/videos/upload"

/-- The production frontend origin hard-coded by the upload CORS middleware. -/
def productionOrigin : String := "https://videoteca-web-enfermeria.vercel.app"

/-- The parts of an inbound request the bootstrap middleware reads. -/
structure HttpRequest where
  method : String
  origin : Option String
  url : String
deriving DecidableEq

/-- What a middleware does with a request: end the response or pass it on. -/
inductive MiddlewareResult where
  | handled (status : Nat) (headers : List (String × String))
  | next
deriving DecidableEq

/-- The headers set by the dedicated upload CORS middleware (bootstrap
lines 71-74): a fixed allow-origin, independent of the request. -/
def uploadCorsHeaders : List (String × String) :=
  [("Access-Control-Allow-Origin", productionOrigin),
   ("Access-Control-Allow-Methods", "POST, OPTIONS"),
   ("Access-Control-Allow-Headers",
    "Content-Type, Authorization, Accept, X-Requested-With, Origin"),
   ("Access-Control-Max-Age", "86400")]

/-- The dedicated upload CORS middleware (bootstrap lines 69-78): an
OPTIONS request is answered immediately with status 200 and the fixed
headers; anything else falls through to the next stage. -/
def uploadCorsMiddleware (req : HttpRequest) : MiddlewareResult :=
  if req.method = "OPTIONS" then .handled 200 uploadCorsHeaders else .next

/-- The upload-route pipeline around the CORS middleware: when the
middleware ends the response, neither the auth guard nor the route handler
runs; otherwise the guard runs first (401 on failure) and then the handler. -/
def uploadOptionsPipeline (req : HttpRequest) (authOk : Bool)
    (handler : HttpRequest → Nat × List (String × String)) :
    Nat × List (String × String) :=
  match uploadCorsMiddleware req with
  | .handled s hs => (s, hs)
  | .next => if authOk then handler req else (401, [])

/-! Helper lemmas on strings and list containment. -/

/-- Two strings with the same character data are equal. -/
theorem string_eq_of_data_eq {a b : String} (h : a.data = b.data) : a = b := by
  cases a
  cases b
  exact congrArg String.mk h

/-- `String.length` is the length of the character data. -/
theorem strLength_eq (s : String) : s.length = s.data.length := rfl

/-- Boolean list-prefix is transitive (over a lawful `BEq`). -/
theorem isPrefixOf_trans {α : Type} [BEq α] [LawfulBEq α] (as : List α) :
    ∀ bs cs : List α, as.isPrefixOf bs = true → bs.isPrefixOf cs = true →
      as.isPrefixOf cs = true := by
  induction as with
  | nil => intro bs cs _ _; simp
  | cons a as ih =>
    intro bs cs h₁ h₂
    cases bs with
    | nil => simp [List.isPrefixOf] at h₁
    | cons b bs =>
      cases cs with
      | nil => simp [List.isPrefixOf] at h₂
      | cons c cs =>
        simp only [List.isPrefixOf, Bool.and_eq_true, beq_iff_eq] at h₁ h₂ ⊢
        exact ⟨h₁.1.trans h₂.1, ih bs cs h₁.2 h₂.2⟩

/-- The empty sequence is contained in every list. -/
theorem containsSeq_nil {α : Type} [BEq α] (u : List α) :
    containsSeq ([] : List α) u = true := by
  cases u with
  | nil => rfl
  | cons a r => simp [containsSeq]

/-- Containment in a list survives extending that list on the right:
whatever occurs in a Boolean prefix of `u` occurs in `u`. -/
theorem containsSeq_of_prefixOf {α : Type} [BEq α] [LawfulBEq α] (n : List α) :
    ∀ b u : List α, containsSeq n b = true → b.isPrefixOf u = true →
      containsSeq n u = true := by
  intro b
  induction b with
  | nil =>
    intro u h₁ _
    cases n with
    | nil => exact containsSeq_nil u
    | cons x xs => simp [containsSeq, List.isEmpty] at h₁
  | cons x xs ih =>
    intro u h₁ h₂
    cases u with
    | nil => simp [List.isPrefixOf] at h₂
    | cons y ys =>
      simp only [containsSeq, Bool.or_eq_true] at h₁ ⊢
      cases h₁ with
      | inl hp =>
        exact Or.inl (isPrefixOf_trans n (x :: xs) (y :: ys) hp h₂)
      | inr hc =>
        simp only [List.isPrefixOf, Bool.and_eq_true] at h₂
        exact Or.inr (ih ys hc h₂.2)

/-- Storage keys built from equally long nonces determine their nonces. -/
theorem makeStorageKey_nonce_inj {n₁ e₁ n₂ e₂ : String}
    (hlen : n₁.length = n₂.length)
    (h : makeStorageKey n₁ e₁ = makeStorageKey n₂ e₂) : n₁ = n₂ := by
  have hd : n₁.data ++ e₁.data = n₂.data ++ e₂.data := by
    have hdata := congrArg String.data h
    simpa [makeStorageKey] using hdata
  have hl : n₁.data.length = n₂.data.length := by
    rw [← strLength_eq, ← strLength_eq]
    exact hlen
  exact string_eq_of_data_eq (List.append_inj hd hl).1

/-- A storage key built from a non-empty nonce is non-empty. -/
theorem makeStorageKey_ne_empty {n e : String} (hn : n ≠ "") :
    makeStorageKey n e ≠ "" := by
  intro h
  apply hn
  have hd : n.data ++ e.data = [] := by
    have hdata := congrArg String.data h
    simpa [makeStorageKey] using hdata
  exact string_eq_of_data_eq (List.append_eq_nil.mp hd).1

/-- A concrete upload environment in which every external call succeeds. -/
def okEnv : UploadEnv :=
  ⟨.ok (), .ok (), .ok (), "vid-1", "nonce-1"⟩

/-! Claim C1: upload validation. -/

/-- C1 counterexample: a 2 GiB (2147483648-byte) `video/mp4` file satisfies
the claimed constraint "size at most 2 GiB with a video content type", yet
the configured validators reject it, because the code's limit is
`1024 * 1024 * 2000` = 2097152000 bytes, which is smaller than 2 GiB. -/
theorem c1_counterexample :
    (2147483648 : Nat) ≤ 2 * 1024 * 1024 * 1024 ∧
    matchesVideoType "video/mp4" = true ∧
    validateFile ⟨"procedure1.mp4", "video/mp4", 2147483648⟩ = false ∧
    (uploadVideoEndpoint ⟨"procedure1.mp4", "video/mp4", 2147483648⟩
        ⟨"IV Insertion", ""⟩ okEnv).1.statusCode = HttpStatus.UNPROCESSABLE_ENTITY := by
  refine ⟨by decide, by decide, by decide, ?_⟩
  decide

/-- C1 (amended): the upload validation accepts a file iff its declared
size is strictly below 1024·1024·2000 = 2097152000 bytes (about 1.95 GiB,
not 2 GiB) and its content type matches the `video/*` pattern; every
request violating either constraint is answered with the 422 validation
envelope (null data) while the operation log stays empty — no object is
stored and no record is created; an accepted request is handed to the
upload workflow. -/
theorem c1_upload_validation (f : UploadedFile) (dto : CreateVideoDto) (env : UploadEnv) :
    (validateFile f = true ↔
      f.size < 1024 * 1024 * 2000 ∧ matchesVideoType f.mimetype = true) ∧
    (validateFile f = false →
      uploadVideoEndpoint f dto env =
        (⟨HttpStatus.UNPROCESSABLE_ENTITY, fileValidationMessage f, none⟩, [])) ∧
    (validateFile f = true →
      uploadVideoEndpoint f dto env =
        ((uploadVideoHandler (serviceUpload env f dto).1), (serviceUpload env f dto).2)) := by
  refine ⟨?_, ?_, ?_⟩
  · simp [validateFile, maxFileSize, Bool.and_eq_true, decide_eq_true_iff]
  · intro h
    simp [uploadVideoEndpoint, h]
  · intro h
    simp [uploadVideoEndpoint, h]

/-- C1 witness: the amended theorem applied to a rejected oversized file
and to an accepted small file. -/
theorem c1_upload_validation_witness :
    uploadVideoEndpoint ⟨"a.mp4", "video/mp4", 2147483648⟩ ⟨"t", ""⟩ okEnv =
      (⟨HttpStatus.UNPROCESSABLE_ENTITY,
        fileValidationMessage ⟨"a.mp4", "video/mp4", 2147483648⟩, none⟩, []) ∧
    uploadVideoEndpoint ⟨"b.mp4", "video/mp4", 1000⟩ ⟨"t", ""⟩ okEnv =
      ((uploadVideoHandler
          (serviceUpload okEnv ⟨"b.mp4", "video/mp4", 1000⟩ ⟨"t", ""⟩).1),
       (serviceUpload okEnv ⟨"b.mp4", "video/mp4", 1000⟩ ⟨"t", ""⟩).2) :=
  ⟨(c1_upload_validation ⟨"a.mp4", "video/mp4", 2147483648⟩ ⟨"t", ""⟩ okEnv).2.1 (by decide),
   (c1_upload_validation ⟨"b.mp4", "video/mp4", 1000⟩ ⟨"t", ""⟩ okEnv).2.2 (by decide)⟩

/-! Claim C2: compensating delete. -/

/-- C2: whenever the gateway `put` succeeds and the record-store `create`
fails with error `e`, the upload workflow surfaces exactly `e`, attempts
exactly one compensating delete — of the very key it uploaded — during the
run, and behaves identically for every possible outcome of that delete
(so a delete failure is never raised and never masks `e`). -/
theorem c2_compensating_delete (f : UploadedFile) (dto : CreateVideoDto)
    (env : UploadEnv) (e : ThrownError)
    (hput : env.putResult = .ok ()) (hcreate : env.createResult = .error e) :
    (serviceUpload env f dto).1 = .error e ∧
    (serviceUpload env f dto).2.filter isDeleteOp =
      [.deleteObject (makeStorageKey env.nonce (extOf f.originalname))] ∧
    (∀ d : Except ThrownError Unit,
      serviceUpload { env with deleteResult := d } f dto = serviceUpload env f dto) := by
  refine ⟨?_, ?_, ?_⟩
  · simp [serviceUpload, hput, hcreate]
  · simp [serviceUpload, hput, hcreate, isDeleteOp]
  · intro d
    simp [serviceUpload]

/-- C2 witness: a concrete run with a failing create and a failing delete. -/
theorem c2_compensating_delete_witness :
    (serviceUpload ⟨.ok (), .error ⟨some 409, some "dup"⟩, .error ⟨none, none⟩, "vid-2", "n2"⟩
        ⟨"a.mp4", "video/mp4", 5⟩ ⟨"t", ""⟩).1 = .error ⟨some 409, some "dup"⟩ ∧
    (serviceUpload ⟨.ok (), .error ⟨some 409, some "dup"⟩, .error ⟨none, none⟩, "vid-2", "n2"⟩
        ⟨"a.mp4", "video/mp4", 5⟩ ⟨"t", ""⟩).2.filter isDeleteOp =
      [.deleteObject (makeStorageKey "n2" (extOf "a.mp4"))] :=
  ⟨(c2_compensating_delete ⟨"a.mp4", "video/mp4", 5⟩ ⟨"t", ""⟩
      ⟨.ok (), .error ⟨some 409, some "dup"⟩, .error ⟨none, none⟩, "vid-2", "n2"⟩
      ⟨some 409, some "dup"⟩ rfl rfl).1,
   (c2_compensating_delete ⟨"a.mp4", "video/mp4", 5⟩ ⟨"t", ""⟩
      ⟨.ok (), .error ⟨some 409, some "dup"⟩, .error ⟨none, none⟩, "vid-2", "n2"⟩
      ⟨some 409, some "dup"⟩ rfl rfl).2.1⟩

/-! Claim C3: signed-URL issuance. -/

/-- C3: when the record is absent, or carries no storage key (null or the
falsy empty string), the signed-URL endpoint answers 404 Not Found with an
empty gateway call log — the Storage Gateway is never consulted; when a
record with a usable key `k` is found and the gateway yields `url`, the
endpoint answers 200 with exactly that `url`, having called the gateway on
exactly `k`. -/
theorem c3_signed_url (s3 : String → Except ThrownError String)
    (v : Video) (k url : String) :
    (getSignedUrlEndpoint (.ok none) s3 =
      (⟨HttpStatus.NOT_FOUND, "Video no encontrado", none⟩, [])) ∧
    (v.fileKey = none →
      getSignedUrlEndpoint (.ok (some v)) s3 =
        (⟨HttpStatus.NOT_FOUND, "Video no encontrado", none⟩, [])) ∧
    (v.fileKey = some "" →
      getSignedUrlEndpoint (.ok (some v)) s3 =
        (⟨HttpStatus.NOT_FOUND, "Video no encontrado", none⟩, [])) ∧
    (v.fileKey = some k → k ≠ "" → s3 k = .ok url →
      getSignedUrlEndpoint (.ok (some v)) s3 =
        (⟨HttpStatus.OK, "URL firmada obtenida exitosamente", some url⟩, [k])) := by
  refine ⟨rfl, ?_, ?_, ?_⟩
  · intro h
    simp [getSignedUrlEndpoint, h]
  · intro h
    simp [getSignedUrlEndpoint, h]
  · intro h hk hs3
    simp [getSignedUrlEndpoint, h, hk, hs3]

/-- C3 witness: the theorem applied to a record without a key, a record
with the falsy empty key, and a record with key "k1" against a gateway
that returns a URL for it. -/
theorem c3_signed_url_witness :
    getSignedUrlEndpoint
        (.ok (some ⟨"i1", "t", "", none, "a.mp4", 5, "video/mp4"⟩))
        (fun _ => .ok "https://signed.example/u") =
      (⟨HttpStatus.NOT_FOUND, "Video no encontrado", none⟩, []) ∧
    getSignedUrlEndpoint
        (.ok (some ⟨"i2", "t", "", some "", "a.mp4", 5, "video/mp4"⟩))
        (fun _ => .ok "https://signed.example/u") =
      (⟨HttpStatus.NOT_FOUND, "Video no encontrado", none⟩, []) ∧
    getSignedUrlEndpoint
        (.ok (some ⟨"i3", "t", "", some "k1", "a.mp4", 5, "video/mp4"⟩))
        (fun _ => .ok "https://signed.example/u") =
      (⟨HttpStatus.OK, "URL firmada obtenida exitosamente",
        some "https://signed.example/u"⟩, ["k1"]) :=
  ⟨(c3_signed_url (fun _ => .ok "https://signed.example/u")
      ⟨"i1", "t", "", none, "a.mp4", 5, "video/mp4"⟩ "k1" "https://signed.example/u").2.1 rfl,
   (c3_signed_url (fun _ => .ok "https://signed.example/u")
      ⟨"i2", "t", "", some "", "a.mp4", 5, "video/mp4"⟩ "k1" "https://signed.example/u").2.2.1 rfl,
   (c3_signed_url (fun _ => .ok "https://signed.example/u")
      ⟨"i3", "t", "", some "k1", "a.mp4", 5, "video/mp4"⟩ "k1" "https://signed.example/u").2.2.2
     rfl (by decide) rfl⟩

/-! Claim C4: lookup miss on read, update, delete. -/

/-- C4: for an identifier no stored record carries, the read, update and
delete endpoints all answer with a successful envelope — statusCode 200,
null data, and the "Video no encontrado" message — rather than an error
status. -/
theorem c4_lookup_miss (st : List Video) (id : String) (dto : UpdateVideoDto)
    (habs : ∀ v ∈ st, v.id ≠ id) :
    storeFindOne st id = none ∧
    findOneEndpoint (.ok (storeFindOne st id)) =
      ⟨HttpStatus.OK, "Video no encontrado", none⟩ ∧
    updateEndpoint (.ok (storeUpdate st id dto)) =
      ⟨HttpStatus.OK, "Video no encontrado", none⟩ ∧
    removeEndpoint (.ok (storeRemove st id).1) =
      ⟨HttpStatus.OK, "Video no encontrado", none⟩ := by
  have h : storeFindOne st id = none := by
    rw [storeFindOne, List.find?_eq_none]
    intro v hv
    simpa [beq_iff_eq] using habs v hv
  refine ⟨h, ?_, ?_, ?_⟩
  · rw [h]
    rfl
  · rw [storeUpdate, h]
    rfl
  · rw [storeRemove, h]
    rfl

/-- C4 witness: a one-record store queried with a different identifier. -/
theorem c4_lookup_miss_witness :
    findOneEndpoint
        (.ok (storeFindOne [⟨"a", "t", "", some "k", "f.mp4", 5, "video/mp4"⟩] "b")) =
      ⟨HttpStatus.OK, "Video no encontrado", none⟩ ∧
    removeEndpoint
        (.ok (storeRemove [⟨"a", "t", "", some "k", "f.mp4", 5, "video/mp4"⟩] "b").1) =
      ⟨HttpStatus.OK, "Video no encontrado", none⟩ :=
  ⟨(c4_lookup_miss [⟨"a", "t", "", some "k", "f.mp4", 5, "video/mp4"⟩] "b" ⟨none, none⟩
      (by decide)).2.1,
   (c4_lookup_miss [⟨"a", "t", "", some "k", "f.mp4", 5, "video/mp4"⟩] "b" ⟨none, none⟩
      (by decide)).2.2.2⟩

/-! Claim C5: successful upload response. -/

/-- C5: a valid upload whose workflow run succeeds is answered with a 201
envelope whose data is the created record; the record carries the supplied
title and a storage key that is non-empty and distinct from the key of
every prior upload — prior keys being built, like this one, from a
same-length nonce never equal to this run's fresh nonce. -/
theorem c5_upload_success (f : UploadedFile) (dto : CreateVideoDto) (env : UploadEnv)
    (priorKeys priorNonces : List String)
    (hvalid : validateFile f = true)
    (hput : env.putResult = .ok ()) (hcreate : env.createResult = .ok ())
    (hprior : ∀ k ∈ priorKeys, ∃ n e : String,
      n.length = env.nonce.length ∧ n ∈ priorNonces ∧ k = makeStorageKey n e)
    (hfresh : env.nonce ∉ priorNonces)
    (hne : env.nonce ≠ "") :
    uploadVideoEndpoint f dto env =
      (⟨HttpStatus.CREATED, "Video subido exitosamente",
        some (mkVideoRecord env.freshId
          (makeStorageKey env.nonce (extOf f.originalname)) f dto)⟩,
       [.putObject (makeStorageKey env.nonce (extOf f.originalname)),
        .createRecord (makeStorageKey env.nonce (extOf f.originalname))]) ∧
    (mkVideoRecord env.freshId
      (makeStorageKey env.nonce (extOf f.originalname)) f dto).title = dto.title ∧
    (mkVideoRecord env.freshId
      (makeStorageKey env.nonce (extOf f.originalname)) f dto).fileKey =
      some (makeStorageKey env.nonce (extOf f.originalname)) ∧
    makeStorageKey env.nonce (extOf f.originalname) ≠ "" ∧
    makeStorageKey env.nonce (extOf f.originalname) ∉ priorKeys := by
  refine ⟨?_, rfl, rfl, makeStorageKey_ne_empty hne, ?_⟩
  · simp [uploadVideoEndpoint, hvalid, serviceUpload, hput, hcreate, uploadVideoHandler]
  · intro hmem
    obtain ⟨n, e, hlen, hn, hk⟩ := hprior _ hmem
    have hEq : env.nonce = n := makeStorageKey_nonce_inj hlen.symm hk
    exact hfresh (hEq.symm ▸ hn)

/-- C5 witness: a concrete successful upload whose nonce differs from the
one prior upload's nonce. -/
theorem c5_upload_success_witness :
    uploadVideoEndpoint ⟨"procedure1.mp4", "video/mp4", 10485760⟩
        ⟨"IV Insertion", ""⟩ ⟨.ok (), .ok (), .ok (), "vid-9", "u1"⟩ =
      (⟨HttpStatus.CREATED, "Video subido exitosamente",
        some (mkVideoRecord "vid-9" (makeStorageKey "u1" (extOf "procedure1.mp4"))
          ⟨"procedure1.mp4", "video/mp4", 10485760⟩ ⟨"IV Insertion", ""⟩)⟩,
       [.putObject (makeStorageKey "u1" (extOf "procedure1.mp4")),
        .createRecord (makeStorageKey "u1" (extOf "procedure1.mp4"))]) ∧
    makeStorageKey "u1" (extOf "procedure1.mp4") ≠ "" ∧
    makeStorageKey "u1" (extOf "procedure1.mp4") ∉ ["u2.mp4"] := by
  have h := c5_upload_success ⟨"procedure1.mp4", "video/mp4", 10485760⟩
    ⟨"IV Insertion", ""⟩ ⟨.ok (), .ok (), .ok (), "vid-9", "u1"⟩
    ["u2.mp4"] ["u2"] (by decide) rfl rfl
    (by
      intro k hk
      have hk2 : k = "u2.mp4" := by simpa using hk
      exact ⟨"u2", ".mp4", by decide, by simp, by rw [hk2]; rfl⟩)
    (by decide) (by decide)
  exact ⟨h.1, h.2.2.2.1, h.2.2.2.2⟩

/-! Claim C6: boundary error translation. -/

/-- C6: every endpoint translates a workflow error into an envelope (never
re-raises): the envelope's statusCode is `error.statusCode || 500` with
null data, for all six handlers; that value is the error's own code when
the error carries a (truthy) one and 500 when it carries none. -/
theorem c6_boundary_catch (e : ThrownError) (s3 : String → Except ThrownError String) :
    ((uploadVideoHandler (.error e)).statusCode =
        jsOrCode e.statusCode HttpStatus.INTERNAL_SERVER_ERROR ∧
      (uploadVideoHandler (.error e)).data = none) ∧
    ((findAllEndpoint (.error e)).statusCode =
        jsOrCode e.statusCode HttpStatus.INTERNAL_SERVER_ERROR ∧
      (findAllEndpoint (.error e)).data = none) ∧
    ((findOneEndpoint (.error e)).statusCode =
        jsOrCode e.statusCode HttpStatus.INTERNAL_SERVER_ERROR ∧
      (findOneEndpoint (.error e)).data = none) ∧
    (((getSignedUrlEndpoint (.error e) s3).1).statusCode =
        jsOrCode e.statusCode HttpStatus.INTERNAL_SERVER_ERROR ∧
      ((getSignedUrlEndpoint (.error e) s3).1).data = none) ∧
    ((updateEndpoint (.error e)).statusCode =
        jsOrCode e.statusCode HttpStatus.INTERNAL_SERVER_ERROR ∧
      (updateEndpoint (.error e)).data = none) ∧
    ((removeEndpoint (.error e)).statusCode =
        jsOrCode e.statusCode HttpStatus.INTERNAL_SERVER_ERROR ∧
      (removeEndpoint (.error e)).data = none) ∧
    (∀ n : Nat, e.statusCode = some n → n ≠ 0 →
      jsOrCode e.statusCode HttpStatus.INTERNAL_SERVER_ERROR = n) ∧
    (e.statusCode = none →
      jsOrCode e.statusCode HttpStatus.INTERNAL_SERVER_ERROR =
        HttpStatus.INTERNAL_SERVER_ERROR) := by
  refine ⟨⟨rfl, rfl⟩, ⟨rfl, rfl⟩, ⟨rfl, rfl⟩, ⟨rfl, rfl⟩, ⟨rfl, rfl⟩, ⟨rfl, rfl⟩, ?_, ?_⟩
  · intro n hn h0
    rw [hn]
    simp [jsOrCode, h0]
  · intro hn
    rw [hn]
    rfl

/-- C6 witness: an error carrying code 404 yields a 404 envelope; an error
carrying nothing yields the 500 default. -/
theorem c6_boundary_catch_witness :
    (uploadVideoHandler (.error ⟨some 404, some "m"⟩)).statusCode = 404 ∧
    (uploadVideoHandler (.error ⟨some 404, some "m"⟩)).data = none ∧
    (removeEndpoint (.error ⟨none, none⟩)).statusCode = 500 := by
  have h₁ := c6_boundary_catch ⟨some 404, some "m"⟩ (fun _ => .ok "u")
  have h₂ := c6_boundary_catch ⟨none, none⟩ (fun _ => .ok "u")
  refine ⟨?_, h₁.1.2, ?_⟩
  · exact h₁.1.1.trans (h₁.2.2.2.2.2.2.1 404 rfl (by decide))
  · exact h₂.2.2.2.2.2.1.1.trans (h₂.2.2.2.2.2.2.2 rfl)

/-! Claim C9: non-success envelopes carry null data. -/

/-- C9: across all six handlers, whenever the returned envelope's
statusCode is neither 200 nor 201, its data field is null. -/
theorem c9_nonsuccess_null_data :
    (∀ (f : UploadedFile) (dto : CreateVideoDto) (env : UploadEnv),
      (uploadVideoEndpoint f dto env).1.statusCode ≠ 200 →
      (uploadVideoEndpoint f dto env).1.statusCode ≠ 201 →
      (uploadVideoEndpoint f dto env).1.data = none) ∧
    (∀ svc : Except ThrownError (List Video),
      (findAllEndpoint svc).statusCode ≠ 200 →
      (findAllEndpoint svc).statusCode ≠ 201 →
      (findAllEndpoint svc).data = none) ∧
    (∀ svc : Except ThrownError (Option Video),
      (findOneEndpoint svc).statusCode ≠ 200 →
      (findOneEndpoint svc).statusCode ≠ 201 →
      (findOneEndpoint svc).data = none) ∧
    (∀ (svc : Except ThrownError (Option Video))
        (s3 : String → Except ThrownError String),
      ((getSignedUrlEndpoint svc s3).1).statusCode ≠ 200 →
      ((getSignedUrlEndpoint svc s3).1).statusCode ≠ 201 →
      ((getSignedUrlEndpoint svc s3).1).data = none) ∧
    (∀ svc : Except ThrownError (Option Video),
      (updateEndpoint svc).statusCode ≠ 200 →
      (updateEndpoint svc).statusCode ≠ 201 →
      (updateEndpoint svc).data = none) ∧
    (∀ svc : Except ThrownError (Option Video),
      (removeEndpoint svc).statusCode ≠ 200 →
      (removeEndpoint svc).statusCode ≠ 201 →
      (removeEndpoint svc).data = none) := by
  refine ⟨?_, ?_, ?_, ?_, ?_, ?_⟩
  · intro f dto env h200 h201
    by_cases hval : validateFile f = true
    · cases hs : (serviceUpload env f dto).1 with
      | ok v =>
        exfalso
        apply h201
        simp [uploadVideoEndpoint, hval, hs, uploadVideoHandler, HttpStatus.CREATED]
      | error e =>
        simp [uploadVideoEndpoint, hval, hs, uploadVideoHandler, errorEnvelope]
    · have hval2 : validateFile f = false := by simpa using hval
      simp [uploadVideoEndpoint, hval2]
  · intro svc h200 _
    cases svc with
    | ok vs => exact absurd rfl h200
    | error e => rfl
  · intro svc h200 _
    cases svc with
    | ok vo => cases vo <;> exact absurd rfl h200
    | error e => rfl
  · intro svc s3 h200 _
    cases svc with
    | error e => rfl
    | ok vo =>
      cases vo with
      | none => rfl
      | some v =>
        cases hfk : v.fileKey with
        | none => simp [getSignedUrlEndpoint, hfk]
        | some k =>
          by_cases hk : k = ""
          · simp [getSignedUrlEndpoint, hfk, hk]
          · cases hs : s3 k with
            | ok url =>
              exfalso
              apply h200
              simp [getSignedUrlEndpoint, hfk, hk, hs, HttpStatus.OK]
            | error e2 =>
              simp [getSignedUrlEndpoint, hfk, hk, hs, errorEnvelope]
  · intro svc h200 _
    cases svc with
    | ok vo => cases vo <;> exact absurd rfl h200
    | error e => rfl
  · intro svc h200 _
    cases svc with
    | ok vo => cases vo <;> exact absurd rfl h200
    | error e => rfl

/-- C9 witness: each handler evaluated at an input with a non-success
statusCode has null data. -/
theorem c9_nonsuccess_null_data_witness :
    (uploadVideoEndpoint ⟨"a.mp4", "video/mp4", 2147483648⟩ ⟨"t", ""⟩ okEnv).1.data = none ∧
    (findAllEndpoint (.error ⟨some 503, none⟩)).data = none ∧
    (findOneEndpoint (.error ⟨some 503, none⟩)).data = none ∧
    ((getSignedUrlEndpoint (.ok none) (fun _ => .ok "u")).1).data = none ∧
    (updateEndpoint (.error ⟨some 503, none⟩)).data = none ∧
    (removeEndpoint (.error ⟨some 503, none⟩)).data = none :=
  ⟨c9_nonsuccess_null_data.1 ⟨"a.mp4", "video/mp4", 2147483648⟩ ⟨"t", ""⟩ okEnv
      (by decide) (by decide),
   c9_nonsuccess_null_data.2.1 (.error ⟨some 503, none⟩) (by decide) (by decide),
   c9_nonsuccess_null_data.2.2.1 (.error ⟨some 503, none⟩) (by decide) (by decide),
   c9_nonsuccess_null_data.2.2.2.1 (.ok none) (fun _ => .ok "u") (by decide) (by decide),
   c9_nonsuccess_null_data.2.2.2.2.1 (.error ⟨some 503, none⟩) (by decide) (by decide),
   c9_nonsuccess_null_data.2.2.2.2.2 (.error ⟨some 503, none⟩) (by decide) (by decide)⟩

/-! Claim C7: request deadlines. -/

/-- C7 counterexample: the claim says the deadline for non-upload requests
is on the order of seconds, but the globally applied TimeoutInterceptor
deadline is 300000 ms — five minutes, not less than one minute. -/
theorem c7_counterexample :
    globalTimeoutMs = 300000 ∧ ¬ (globalTimeoutMs < 60000) := by
  constructor
  · rfl
  · decide

/-- C7 (amended): upload requests get a 600000 ms (10 minute) socket
deadline, strictly longer (twice as long) than the 300000 ms (5 minute)
global interceptor deadline that governs all requests; both deadlines are
on the order of minutes (at least 60000 ms), not seconds. -/
theorem c7_timeout_policy :
    uploadRequestTimeoutMs = 600000 ∧ globalTimeoutMs = 300000 ∧
    globalTimeoutMs < uploadRequestTimeoutMs ∧
    uploadRequestTimeoutMs = 2 * globalTimeoutMs ∧
    60000 ≤ globalTimeoutMs ∧ 60000 ≤ uploadRequestTimeoutMs := by
  refine ⟨rfl, rfl, ?_, rfl, ?_, ?_⟩ <;> decide

/-! Claim C8: rate limiting. -/

/-- C8: the upload limiter's window (1 hour) and quota (10) are distinct
from and longer-windowed than the general limiter's (15 minutes, 100); and
every request whose URL is routed to the upload limiter (a URL the mount
path is a prefix of) is skipped by the general limiter, so upload requests
are never counted against it. -/
theorem c8_rate_limit_policy (url : String)
    (hroute : uploadRoutePath.data.isPrefixOf url.data = true) :
    uploadRateWindowMs = 3600000 ∧ generalRateWindowMs = 900000 ∧
    generalRateWindowMs < uploadRateWindowMs ∧
    (uploadRateWindowMs, uploadRateMax) ≠ (generalRateWindowMs, generalRateMax) ∧
    generalLimiterSkips url = true := by
  refine ⟨rfl, rfl, by decide, by decide, ?_⟩
  have hc : containsSeq "/videos/upload".data uploadRoutePath.data = true := by decide
  exact containsSeq_of_prefixOf _ _ _ hc hroute

/-- C8 witness: a request to the upload route itself. -/
theorem c8_rate_limit_policy_witness :
    generalLimiterSkips "/api/v1/videos/upload" = true ∧
    generalRateWindowMs < uploadRateWindowMs :=
  ⟨(c8_rate_limit_policy "/api/v1/videos/upload" (by decide)).2.2.2.2,
   (c8_rate_limit_policy "/api/v1/videos/upload" (by decide)).2.2.1⟩

/-! Claim C10: upload preflight CORS. -/

/-- C10: two OPTIONS preflights to the upload path that differ only in
their Origin header get identical responses from the dedicated upload CORS
middleware: status 200 with the fixed production-frontend
Access-Control-Allow-Origin header, independent of the request Origin and
of the authentication outcome (the guard and handler never run). -/
theorem c10_upload_preflight (u : String) (o₁ o₂ : Option String) (a₁ a₂ : Bool)
    (h₁ h₂ : HttpRequest → Nat × List (String × String)) :
    uploadOptionsPipeline ⟨"OPTIONS", o₁, u⟩ a₁ h₁ =
      uploadOptionsPipeline ⟨"OPTIONS", o₂, u⟩ a₂ h₂ ∧
    uploadOptionsPipeline ⟨"OPTIONS", o₁, u⟩ a₁ h₁ = (200, uploadCorsHeaders) ∧
    ("Access-Control-Allow-Origin", productionOrigin) ∈ uploadCorsHeaders := by
  refine ⟨rfl, rfl, ?_⟩
  simp [uploadCorsHeaders]

end ClinicHub
